import Mathlib

/-!
Verification of the chat client in src/App.js (ETG08/chatbotX).

The component state (React useState hooks plus the localStorage slot and
the console log) is embedded as an explicit record, and each handler
(sendMessage, loadHistory, clearChat, handleKeyPress, the button click)
becomes a pure state-transition function.  Asynchronous remote calls are
embedded by passing the outcome of the remote exchange as an explicit
parameter; instants (JS Date values) are Nat, with none standing for an
invalid date built from an undefined field.  Fields that the code leaves
undefined on a message object are modelled by their JS-falsy defaults
(empty list, false) when no reader of the code can distinguish the two,
and by Option when the distinction is observable.
-/

set_option autoImplicit false

namespace ChatbotX

/-- A thread entry as built by App.js.  text and timestamp are Option
because the code can store undefined (a missing response field) and an
invalid Date there; toolsUsed and isError default to their falsy values,
which the rendering code cannot tell apart from undefined. -/
structure Message where
  text : Option String
  sender : String
  timestamp : Option Nat
  toolsUsed : List String := []
  isError : Bool := false
deriving DecidableEq, Repr

/-- The client state: the messages hook, the input hook, the isLoading
busy flag, the sessionId hook, the localStorage slot keyed by the string
sessionId (none when absent), and the console log. -/
structure AppState where
  messages : List Message
  input : String
  isLoading : Bool
  sessionId : String
  slot : Option String
  consoleLog : List String
deriving DecidableEq, Repr

/-- Body of a 2xx response to POST api chat, with every field optional:
the code never validates the shape, so each field may be undefined. -/
structure ChatData where
  response : Option String := none
  timestamp : Option Nat := none
  tools_used : Option (List String) := none
deriving DecidableEq, Repr

/-- Outcome of the awaited axios.post call seen by sendMessage:
  throws   - transport error or non-2xx status (axios rejects);
  okNull   - 2xx whose body is null, so reading data.response throws a
             TypeError inside the try block, caught by the same catch;
  ok data  - 2xx with an object body (possibly missing every field). -/
inductive ChatOutcome where
  | throws
  | okNull
  | ok (data : ChatData)
deriving DecidableEq, Repr

/-- The JSON body posted to api chat. -/
structure ChatRequest where
  message : String
  session_id : String
deriving DecidableEq, Repr

/-- The fixed fallback text appended by the catch block of sendMessage. -/
def fallbackText : String := "Sorry, I encountered an error. Please try again."

/-- The ASCII whitespace characters stripped by the JS trim used in
App.js (space, tab, newline, carriage return, vertical tab, form feed). -/
def isJsSpace (c : Char) : Bool :=
  c = ' ' || c = '\t' || c = '\n' || c = '\r' || c = '\x0b' || c = '\x0c'

/-- JS String.prototype.trim: strip whitespace from both ends. -/
def jsTrim (s : String) : String :=
  String.mk (((s.data.dropWhile isJsSpace).reverse.dropWhile isJsSpace).reverse)

/-- sendMessage from App.js.  now is Date.now at entry, errNow is the
Date.now of the catch block; the pair returned is the new state together
with the chat request issued (none when the guard fired).  The guard is
the single line: if the trimmed input is empty, return. -/
def sendMessage (now errNow : Nat) (outcome : ChatOutcome) (s : AppState) :
    AppState × Option ChatRequest :=
  if jsTrim s.input = "" then (s, none)
  else
    let userMessage : Message :=
      { text := some s.input, sender := "user", timestamp := some now }
    let currentInput := s.input
    let s1 : AppState :=
      { s with messages := s.messages ++ [userMessage], input := "", isLoading := true }
    let req : ChatRequest := { message := currentInput, session_id := s.sessionId }
    match outcome with
    | ChatOutcome.ok data =>
        let aiMessage : Message :=
          { text := data.response, sender := "ai", timestamp := data.timestamp,
            toolsUsed := data.tools_used.getD [] }
        ({ s1 with messages := s1.messages ++ [aiMessage], isLoading := false }, some req)
    | ChatOutcome.throws =>
        let errMessage : Message :=
          { text := some fallbackText, sender := "ai", timestamp := some errNow,
            isError := true }
        ({ s1 with messages := s1.messages ++ [errMessage],
                   consoleLog := s1.consoleLog ++ ["Error:"],
                   isLoading := false }, some req)
    | ChatOutcome.okNull =>
        let errMessage : Message :=
          { text := some fallbackText, sender := "ai", timestamp := some errNow,
            isError := true }
        ({ s1 with messages := s1.messages ++ [errMessage],
                   consoleLog := s1.consoleLog ++ ["Error:"],
                   isLoading := false }, some req)

/-- The send button of the render: its disabled prop is
isLoading or not input.trim(), and a disabled button fires no click, so
sendMessage runs only when both gates pass. -/
def clickSend (now errNow : Nat) (outcome : ChatOutcome) (s : AppState) :
    AppState × Option ChatRequest :=
  if s.isLoading || jsTrim s.input = "" then (s, none)
  else sendMessage now errNow outcome s

/-- The keypress path of the render: the text input has disabled prop
isLoading (a disabled input receives no key events), and handleKeyPress
calls sendMessage only on Enter without shift. -/
def keyPressSend (key : String) (shiftKey : Bool) (now errNow : Nat)
    (outcome : ChatOutcome) (s : AppState) : AppState × Option ChatRequest :=
  if s.isLoading then (s, none)
  else if key = "Enter" && !shiftKey then sendMessage now errNow outcome s
  else (s, none)

/-- One entry of the history array returned by GET api history. -/
structure HistoryEntry where
  role : String
  content : String
  timestamp : Nat
deriving DecidableEq, Repr

/-- Outcome of the awaited axios.get in loadHistory: throws for a
network or parse failure, ok for a 2xx body whose history field is
absent (none) or the given array. -/
inductive HistoryOutcome where
  | throws
  | ok (history : Option (List HistoryEntry))
deriving DecidableEq, Repr

/-- The per-entry mapping inside loadHistory: content becomes text,
role user maps to sender user and anything else to sender ai, and the
timestamp is parsed into a Date. -/
def hydrateEntry (e : HistoryEntry) : Message :=
  { text := some e.content,
    sender := if e.role = "user" then "user" else "ai",
    timestamp := some e.timestamp }

/-- loadHistory from App.js: on success with a present, non-empty
history array it replaces messages with the mapped entries; on a
present-but-empty or absent array it does nothing; on failure it only
logs. -/
def loadHistory (outcome : HistoryOutcome) (s : AppState) : AppState :=
  match outcome with
  | HistoryOutcome.throws =>
      { s with consoleLog := s.consoleLog ++ ["Failed to load history:"] }
  | HistoryOutcome.ok none => s
  | HistoryOutcome.ok (some entries) =>
      if entries.length > 0 then { s with messages := entries.map hydrateEntry }
      else s

/-- Outcome of the awaited axios.delete in clearChat. -/
inductive DeleteOutcome where
  | throws
  | ok
deriving DecidableEq, Repr

/-- The fresh id generated from Date.now, as in App.js. -/
def freshSessionId (now : Nat) : String := "session_" ++ toString now

/-- clearChat from App.js.  confirmed is the result of window.confirm;
the second component is the session id targeted by the DELETE request
(none when no request was issued).  The local clearing sits inside the
try block after the awaited delete, so a throwing delete skips it. -/
def clearChat (confirmed : Bool) (outcome : DeleteOutcome) (now : Nat)
    (s : AppState) : AppState × Option String :=
  if confirmed then
    match outcome with
    | DeleteOutcome.ok =>
        ({ s with messages := [],
                  sessionId := freshSessionId now,
                  slot := some (freshSessionId now) }, some s.sessionId)
    | DeleteOutcome.throws =>
        ({ s with consoleLog := s.consoleLog ++ ["Error clearing session:"] },
         some s.sessionId)
  else (s, none)

/-- The mount effect of App.js restricted to identity resolution: read
the slot; when present return the stored id, otherwise generate a fresh
id and persist it.  Returns the resolved id and the new slot. -/
def resolve (now : Nat) (slot : Option String) : String × Option String :=
  match slot with
  | some sid => (sid, some sid)
  | none => (freshSessionId now, some (freshSessionId now))

/-! Concrete sample states used by witnesses and counterexamples. -/

/-- An idle state holding the text ping, ready to send. -/
def sPing : AppState :=
  { messages := [], input := "ping", isLoading := false,
    sessionId := "session_1", slot := some "session_1", consoleLog := [] }

/-- A busy state: an exchange is in flight. -/
def sBusy : AppState :=
  { messages := [], input := "hello", isLoading := true,
    sessionId := "session_1", slot := some "session_1", consoleLog := [] }

/-- A 2xx body carrying none of the expected fields. -/
def malformedData : ChatData := {}

/-- The user message appended when sPing is sent at instant 5. -/
def mUserPing : Message :=
  { text := some "ping", sender := "user", timestamp := some 5 }

/-- The assistant entry built from the malformed body: every field read
from the response is undefined. -/
def mMalformedReply : Message :=
  { text := none, sender := "ai", timestamp := none }

/-- A state with one message already in the thread. -/
def sOne : AppState :=
  { messages := [mUserPing], input := "", isLoading := false,
    sessionId := "session_1", slot := some "session_1", consoleLog := [] }

/-- A state whose input is whitespace only. -/
def sBlank : AppState :=
  { messages := [], input := "   ", isLoading := false,
    sessionId := "session_1", slot := some "session_1", consoleLog := [] }

/-- The simulated success body of the spec: pong at instant 7 using the
lookup tool. -/
def pongData : ChatData :=
  { response := some "pong", timestamp := some 7, tools_used := some ["lookup"] }

/-- The round-trip history entries of the spec. -/
def eHi : HistoryEntry := { role := "user", content := "hi", timestamp := 1 }

/-- Second round-trip history entry. -/
def eHello : HistoryEntry := { role := "assistant", content := "hello", timestamp := 2 }

/-! The claims. -/

/-- Claim C1: while the busy flag (isLoading) is set, every user-level
send is a no-op: both entry points that can invoke sendMessage — the
send button and the Enter keypress on the input — are gated by the
disabled props of the render, so the state is unchanged and no request
is issued; in particular at most one exchange is in flight at a time. -/
theorem busy_send_noop (now errNow : Nat) (outcome : ChatOutcome) (key : String)
    (shiftKey : Bool) (s : AppState) (h : s.isLoading = true) :
    clickSend now errNow outcome s = (s, none) ∧
    keyPressSend key shiftKey now errNow outcome s = (s, none) := by
  refine ⟨?_, ?_⟩ <;> simp [clickSend, keyPressSend, h]

/-- Witness for busy_send_noop at the concrete busy state sBusy. -/
theorem busy_send_noop_witness :
    sBusy.isLoading = true ∧
    (clickSend 1 2 ChatOutcome.throws sBusy = (sBusy, none) ∧
     keyPressSend "Enter" false 1 2 ChatOutcome.throws sBusy = (sBusy, none)) :=
  ⟨by decide, busy_send_noop 1 2 ChatOutcome.throws "Enter" false sBusy (by decide)⟩

/-- Claim C2 fails on the code: the local clearing of clearChat sits
inside the try block after the awaited DELETE, so when the deletion
request throws, the store is not emptied and the persisted id is not
replaced — only the error is logged. -/
theorem clearChat_failure_counterexample :
    (clearChat true DeleteOutcome.throws 2 sOne).1.messages = sOne.messages ∧
    sOne.messages ≠ [] ∧
    (clearChat true DeleteOutcome.throws 2 sOne).1.sessionId = sOne.sessionId ∧
    (clearChat true DeleteOutcome.throws 2 sOne).1.slot = sOne.slot := by
  decide

/-- Claim C2 as amended: for a confirmed invocation, a deletion request
for the current session id is issued; when it succeeds, the store is
emptied, the persisted id becomes the fresh id (different from the
prior one whenever the generated string differs) and a subsequent
resolve returns the new id; when it fails, the failure is only logged
and no local clearing happens. -/
theorem clearChat_amended (now m : Nat) (s : AppState)
    (h : freshSessionId now ≠ s.sessionId) :
    ((clearChat true DeleteOutcome.ok now s).1.messages = [] ∧
     (clearChat true DeleteOutcome.ok now s).1.sessionId = freshSessionId now ∧
     (clearChat true DeleteOutcome.ok now s).1.sessionId ≠ s.sessionId ∧
     (clearChat true DeleteOutcome.ok now s).2 = some s.sessionId ∧
     (resolve m (clearChat true DeleteOutcome.ok now s).1.slot).1 =
       (clearChat true DeleteOutcome.ok now s).1.sessionId) ∧
    ((clearChat true DeleteOutcome.throws now s).1.messages = s.messages ∧
     (clearChat true DeleteOutcome.throws now s).1.sessionId = s.sessionId ∧
     (clearChat true DeleteOutcome.throws now s).1.slot = s.slot ∧
     (clearChat true DeleteOutcome.throws now s).2 = some s.sessionId) := by
  refine ⟨⟨rfl, rfl, h, rfl, rfl⟩, rfl, rfl, rfl, rfl⟩

/-- Witness for clearChat_amended at the concrete state sOne. -/
theorem clearChat_amended_witness :
    freshSessionId 2 ≠ sOne.sessionId ∧
    (((clearChat true DeleteOutcome.ok 2 sOne).1.messages = [] ∧
      (clearChat true DeleteOutcome.ok 2 sOne).1.sessionId = freshSessionId 2 ∧
      (clearChat true DeleteOutcome.ok 2 sOne).1.sessionId ≠ sOne.sessionId ∧
      (clearChat true DeleteOutcome.ok 2 sOne).2 = some sOne.sessionId ∧
      (resolve 9 (clearChat true DeleteOutcome.ok 2 sOne).1.slot).1 =
        (clearChat true DeleteOutcome.ok 2 sOne).1.sessionId) ∧
     ((clearChat true DeleteOutcome.throws 2 sOne).1.messages = sOne.messages ∧
      (clearChat true DeleteOutcome.throws 2 sOne).1.sessionId = sOne.sessionId ∧
      (clearChat true DeleteOutcome.throws 2 sOne).1.slot = sOne.slot ∧
      (clearChat true DeleteOutcome.throws 2 sOne).2 = some sOne.sessionId)) :=
  ⟨by decide, clearChat_amended 2 9 sOne (by decide)⟩

/-- Claim C3: a send of non-empty trimmed text whose exchange succeeds
appends exactly two entries in order — the optimistic user message with
the raw text and send-time timestamp, then an assistant message whose
text, timestamp and tool list come from the server response (tool list
empty when omitted) and whose isError is false — and issues exactly the
request carrying the text and the current session id. -/
theorem send_success_appends (now errNow : Nat) (data : ChatData) (s : AppState)
    (h : jsTrim s.input ≠ "") :
    (sendMessage now errNow (ChatOutcome.ok data) s).1.messages =
      s.messages ++
        [{ text := some s.input, sender := "user", timestamp := some now },
         { text := data.response, sender := "ai", timestamp := data.timestamp,
           toolsUsed := data.tools_used.getD [], isError := false }] ∧
    (sendMessage now errNow (ChatOutcome.ok data) s).2 =
      some { message := s.input, session_id := s.sessionId } := by
  simp [sendMessage, h]

/-- Witness for send_success_appends: the simulated pong response of
the spec at the concrete state sPing. -/
theorem send_success_appends_witness :
    jsTrim sPing.input ≠ "" ∧
    ((sendMessage 5 6 (ChatOutcome.ok pongData) sPing).1.messages =
       sPing.messages ++
         [{ text := some sPing.input, sender := "user", timestamp := some 5 },
          { text := pongData.response, sender := "ai", timestamp := pongData.timestamp,
            toolsUsed := pongData.tools_used.getD [], isError := false }] ∧
     (sendMessage 5 6 (ChatOutcome.ok pongData) sPing).2 =
       some { message := sPing.input, session_id := sPing.sessionId }) :=
  ⟨by decide, send_success_appends 5 6 pongData sPing (by decide)⟩

/-- Claim C4 fails on the code for a malformed response: a 2xx reply
whose object body lacks the expected fields does not reach the catch
block, so the appended assistant entry is a normal message built from
the undefined fields — isError is false and the text is not the
fallback text. -/
theorem send_malformed_counterexample :
    (sendMessage 5 6 (ChatOutcome.ok malformedData) sPing).1.messages =
      [mUserPing, mMalformedReply] ∧
    mMalformedReply.isError = false ∧
    mMalformedReply.text ≠ some fallbackText := by
  decide

/-- Claim C4 as amended: when the exchange rejects (transport error or
non-success status) or its 2xx body is null so that reconciliation
throws, the store gains exactly the optimistic user message followed by
one assistant entry with the fixed fallback text, isError true and the
catch-time timestamp; the user message is kept, nothing is thrown to
the caller and no second request is issued.  A 2xx response with a
non-null body missing the expected fields is instead reconciled as an
ordinary assistant message built from those undefined fields. -/
theorem send_failure_appends (now errNow : Nat) (outcome : ChatOutcome) (s : AppState)
    (h : jsTrim s.input ≠ "")
    (hout : outcome = ChatOutcome.throws ∨ outcome = ChatOutcome.okNull) :
    (sendMessage now errNow outcome s).1.messages =
      s.messages ++
        [{ text := some s.input, sender := "user", timestamp := some now },
         { text := some fallbackText, sender := "ai", timestamp := some errNow,
           toolsUsed := [], isError := true }] ∧
    (sendMessage now errNow outcome s).2 =
      some { message := s.input, session_id := s.sessionId } := by
  rcases hout with h2 | h2 <;> subst h2 <;> simp [sendMessage, h]

/-- Witness for send_failure_appends: a transport failure at sPing. -/
theorem send_failure_appends_witness :
    (jsTrim sPing.input ≠ "" ∧
     (ChatOutcome.throws = ChatOutcome.throws ∨ ChatOutcome.throws = ChatOutcome.okNull)) ∧
    ((sendMessage 5 6 ChatOutcome.throws sPing).1.messages =
       sPing.messages ++
         [{ text := some sPing.input, sender := "user", timestamp := some 5 },
          { text := some fallbackText, sender := "ai", timestamp := some 6,
            toolsUsed := [], isError := true }] ∧
     (sendMessage 5 6 ChatOutcome.throws sPing).2 =
       some { message := sPing.input, session_id := sPing.sessionId }) :=
  ⟨⟨by decide, Or.inl rfl⟩,
   send_failure_appends 5 6 ChatOutcome.throws sPing (by decide) (Or.inl rfl)⟩

/-- Claim C5: when the trimmed input is empty, sendMessage is a silent
no-op: the whole state (messages, busy flag, input, session id, slot,
console log) is unchanged and no request is issued. -/
theorem send_empty_noop (now errNow : Nat) (outcome : ChatOutcome) (s : AppState)
    (h : jsTrim s.input = "") :
    sendMessage now errNow outcome s = (s, none) := by
  simp [sendMessage, h]

/-- Witness for send_empty_noop at the whitespace-only state sBlank. -/
theorem send_empty_noop_witness :
    jsTrim sBlank.input = "" ∧
    sendMessage 1 2 ChatOutcome.throws sBlank = (sBlank, none) :=
  ⟨by decide, send_empty_noop 1 2 ChatOutcome.throws sBlank (by decide)⟩

/-- Claim C6 fails on the code at an empty history array: loadHistory
replaces the store only when the returned array is non-empty, so a
successful response with an empty history leaves a non-empty store
untouched instead of replacing its content. -/
theorem hydrate_empty_counterexample :
    loadHistory (HistoryOutcome.ok (some [])) sOne = sOne ∧
    sOne.messages ≠ List.map hydrateEntry [] := by
  decide

/-- Claim C6 as amended: for every history response with a non-empty
history array, loadHistory replaces the store content with the mapped
entries, preserving server order; each entry maps to sender user
exactly when its role is user (otherwise sender ai), keeping content
and timestamp; and hydration is idempotent on the store content for
every outcome. -/
theorem hydrate_amended (entries : List HistoryEntry) (e : HistoryEntry)
    (o : HistoryOutcome) (s s2 : AppState) (h : entries ≠ []) :
    (loadHistory (HistoryOutcome.ok (some entries)) s).messages =
      entries.map hydrateEntry ∧
    ((hydrateEntry e).sender = "user" ↔ e.role = "user") ∧
    (hydrateEntry e).text = some e.content ∧
    (hydrateEntry e).timestamp = some e.timestamp ∧
    (loadHistory o (loadHistory o s2)).messages = (loadHistory o s2).messages := by
  refine ⟨?_, ?_, rfl, rfl, ?_⟩
  · simp [loadHistory, List.length_pos, h]
  · by_cases hr : e.role = "user" <;> simp [hydrateEntry, hr]
  · cases o with
    | throws => simp [loadHistory]
    | ok hist =>
        cases hist with
        | none => rfl
        | some es => by_cases hl : es.length > 0 <;> simp [loadHistory, hl]

/-- Witness for hydrate_amended on the round-trip history of the spec. -/
theorem hydrate_amended_witness :
    ([eHi, eHello] : List HistoryEntry) ≠ [] ∧
    ((loadHistory (HistoryOutcome.ok (some [eHi, eHello])) sOne).messages =
       List.map hydrateEntry [eHi, eHello] ∧
     ((hydrateEntry eHi).sender = "user" ↔ eHi.role = "user") ∧
     (hydrateEntry eHi).text = some eHi.content ∧
     (hydrateEntry eHi).timestamp = some eHi.timestamp ∧
     (loadHistory (HistoryOutcome.ok (some [eHi, eHello]))
         (loadHistory (HistoryOutcome.ok (some [eHi, eHello])) sOne)).messages =
       (loadHistory (HistoryOutcome.ok (some [eHi, eHello])) sOne).messages) :=
  ⟨by decide,
   hydrate_amended [eHi, eHello] eHi (HistoryOutcome.ok (some [eHi, eHello]))
     sOne sOne (by decide)⟩

/-- Claim C7: a failing hydration leaves every component of the state
except the console log exactly as it was — in particular no error entry
is appended to the thread — and only logs the failure. -/
theorem hydrate_failure_untouched (s : AppState) :
    (loadHistory HistoryOutcome.throws s).messages = s.messages ∧
    (loadHistory HistoryOutcome.throws s).input = s.input ∧
    (loadHistory HistoryOutcome.throws s).isLoading = s.isLoading ∧
    (loadHistory HistoryOutcome.throws s).sessionId = s.sessionId ∧
    (loadHistory HistoryOutcome.throws s).slot = s.slot ∧
    (loadHistory HistoryOutcome.throws s).consoleLog =
      s.consoleLog ++ ["Failed to load history:"] := by
  refine ⟨rfl, rfl, rfl, rfl, rfl, rfl⟩

/-- Claim C8: for every send of non-empty trimmed text, the busy flag
is false once the exchange resolves, whatever the outcome — success,
rejection, or a TypeError thrown while reconciling a null body — since
the finally block always clears isLoading. -/
theorem send_clears_busy (now errNow : Nat) (outcome : ChatOutcome) (s : AppState)
    (h : jsTrim s.input ≠ "") :
    (sendMessage now errNow outcome s).1.isLoading = false := by
  cases outcome <;> simp [sendMessage, h]

/-- Witness for send_clears_busy: the reconciliation-throw outcome at
the concrete state sPing. -/
theorem send_clears_busy_witness :
    jsTrim sPing.input ≠ "" ∧
    (sendMessage 5 6 ChatOutcome.okNull sPing).1.isLoading = false :=
  ⟨by decide, send_clears_busy 5 6 ChatOutcome.okNull sPing (by decide)⟩

/-- Claim C9: a successful history request whose body has an absent or
empty history array leaves the state exactly unchanged: no replacement
with an empty sequence happens. -/
theorem hydrate_absent_or_empty_noop (s : AppState) :
    loadHistory (HistoryOutcome.ok none) s = s ∧
    loadHistory (HistoryOutcome.ok (some [])) s = s :=
  ⟨rfl, rfl⟩

/-- Claim C10: when the confirmation prompt is declined, clearChat
changes nothing and issues no deletion request. -/
theorem clearChat_declined_noop (outcome : DeleteOutcome) (now : Nat) (s : AppState) :
    clearChat false outcome now s = (s, none) :=
  rfl

end ChatbotX
